import Mathlib

/-!
Shallow embedding of the analysis pipeline of `src/stock_analysis.py`
(the revision imported by `src/GUI.py`), together with theorems that
settle the specification claims about it.

Modelling conventions:
* a pandas DataFrame is a `Table`: an association list from column name to
  column; a numeric column is a `List (Option ℚ)` where `none` models a
  missing value (NaN); an object (string) column is a `List String`;
* pandas column statistics (`median`, `min`, `max`, `quantile`) skip
  missing values, so they are computed over `l.filterMap id`;
* machine floats are modelled by `ℚ`; the only places where genuine IEEE
  behaviour matters (a zero denominator) are modelled explicitly at those
  places, with a comment justifying the case split.
-/

/-- Insertion of an element into a sorted rational list (ascending). -/
def insertSorted (x : ℚ) : List ℚ → List ℚ
  | [] => [x]
  | y :: ys => if x ≤ y then x :: y :: ys else y :: insertSorted x ys

/-- Ascending insertion sort, used to model the sorted order that pandas
statistics (`median`, `quantile`) operate on. -/
def sortQ : List ℚ → List ℚ
  | [] => []
  | x :: xs => insertSorted x (sortQ xs)

/-- Median of a list of rationals in the pandas sense (`Series.median`):
`none` on an empty list, middle element of the sorted list for odd length,
mean of the two middle elements for even length. -/
def medianQ (l : List ℚ) : Option ℚ :=
  match l with
  | [] => none
  | _ :: _ =>
    let s := sortQ l
    let n := s.length
    some (if n % 2 = 1 then s.getD (n / 2) 0
          else (s.getD (n / 2 - 1) 0 + s.getD (n / 2) 0) / 2)

/-- Linear-interpolation quantile in the pandas sense
(`Series.quantile(q)`, default interpolation): the value at sorted
position `q * (n - 1)`, linearly interpolated between the two adjacent
order statistics. `none` on an empty list. -/
def quantileQ (l : List ℚ) (q : ℚ) : Option ℚ :=
  match l with
  | [] => none
  | _ :: _ =>
    let s := sortQ l
    let pos : ℚ := q * ((s.length : ℚ) - 1)
    let i : ℕ := (⌊pos⌋).toNat
    let f : ℚ := pos - (i : ℚ)
    some (s.getD i 0 + f * (s.getD (i + 1) (s.getD i 0) - s.getD i 0))

/-- Minimum of a rational list (`none` on empty), as pandas `Series.min`
over the non-missing values. -/
def listMin : List ℚ → Option ℚ
  | [] => none
  | x :: xs => some (match listMin xs with
      | none => x
      | some m => min x m)

/-- Maximum of a rational list (`none` on empty), as pandas `Series.max`
over the non-missing values. -/
def listMax : List ℚ → Option ℚ
  | [] => none
  | x :: xs => some (match listMax xs with
      | none => x
      | some m => max x m)

/-- A DataFrame column: numeric (with `none` modelling NaN) or object
(string-valued). -/
inductive Col where
  | num (vals : List (Option ℚ))
  | str (vals : List String)
deriving DecidableEq, Repr

/-- A DataFrame: an ordered association list from column name to column. -/
abbrev Table := List (String × Col)

/-- The column names of a table (`df.columns`). -/
def colNames (t : Table) : List String := t.map Prod.fst

/-- Column lookup (`df[name]`): the first column with the given name. -/
def getCol : Table → String → Option Col
  | [], _ => none
  | (k, c) :: t, n => if k = n then some c else getCol t n

/-- Numeric column lookup, defaulting to the empty column when the name is
absent or the column is not numeric. -/
def getNumD (t : Table) (n : String) : List (Option ℚ) :=
  match getCol t n with
  | some (Col.num v) => v
  | _ => []

/-- Column assignment (`df[name] = col`): replace the first column with
that name, or append a new column at the end. -/
def setCol (n : String) (c : Col) : Table → Table
  | [] => [(n, c)]
  | (k, d) :: t => if k = n then (k, c) :: t else (k, d) :: setCol n c t

/-- The names of the numeric columns of a table, in order
(`df.select_dtypes(include=np.number).columns`). -/
def numericNames (t : Table) : List String :=
  t.filterMap (fun p => match p.2 with
    | Col.num _ => some p.1
    | _ => none)

/-- Apply a numeric-column transformation to one column, leaving object
columns unchanged. -/
def mapNum (f : List (Option ℚ) → List (Option ℚ)) : Col → Col
  | Col.num v => Col.num (f v)
  | c => c

/-- Apply a columnwise numeric transformation to exactly the columns whose
name is in `ns` (`df[numeric_cols] = f(df[numeric_cols])`). -/
def applyNumIn (ns : List String) (f : List (Option ℚ) → List (Option ℚ))
    (t : Table) : Table :=
  t.map (fun p => if p.1 ∈ ns then (p.1, mapNum f p.2) else p)

/-- Imputation (`df[numeric_cols].fillna(df[numeric_cols].median())`,
line 56): each missing value in a numeric column is replaced by that
column's median over its non-missing values; if the column has no
non-missing value the median is itself NaN and `fillna` leaves the column
unchanged. -/
def imputeCol (l : List (Option ℚ)) : List (Option ℚ) :=
  match medianQ (l.filterMap id) with
  | none => l
  | some m => l.map (fun o => some (o.getD m))

/-- Insertion of a string into a sorted string list (ascending). -/
def insertSortedStr (x : String) : List String → List String
  | [] => [x]
  | y :: ys => if x ≤ y then x :: y :: ys else y :: insertSortedStr x ys

/-- Ascending insertion sort on strings, modelling the sorted order of
`np.unique`. -/
def sortStr : List String → List String
  | [] => []
  | x :: xs => insertSortedStr x (sortStr xs)

/-- Label encoding (`LabelEncoder().fit_transform`, lines 79-82): the
classes are the sorted distinct values of the column (`np.unique`), and
each value is mapped to the index of its class. -/
def encodeCol (l : List String) : List (Option ℚ) :=
  let classes := (sortStr l).dedup
  l.map (fun v => some ((classes.indexOf v : ℕ) : ℚ))

/-- Rolling 5-mean (`df['CLOSE'].rolling(window=5).mean()`, line 60):
entry `i` is the mean of entries `i-4 .. i`, undefined (NaN) for the
first four entries or when the window contains a missing value. -/
def ma5 (l : List (Option ℚ)) : List (Option ℚ) :=
  (List.range l.length).map (fun i =>
    if i + 1 < 5 then none
    else
      let w := (l.drop (i - 4)).take 5
      if w.all Option.isSome then some ((w.filterMap id).sum / 5) else none)

/-- Min-max scaling of one numeric column
(`(x - x.min()) / (x.max() - x.min())`, line 63), bounds taken over the
non-missing values.  When the column is constant (`max == min`) the pandas
expression is `0 / 0 = NaN` for every entry, modelled by `none`; a missing
entry stays missing. -/
def scaleColQ (l : List (Option ℚ)) : List (Option ℚ) :=
  match listMin (l.filterMap id), listMax (l.filterMap id) with
  | some mn, some mx =>
      l.map (fun o => o.bind (fun x =>
        if mx = mn then none else some ((x - mn) / (mx - mn))))
  | _, _ => l

/-- The IQR clipping fences `[Q1 - 1.5*IQR, Q3 + 1.5*IQR]` of a column
(lines 66-70), computed from the quantiles of the column it is applied
to. `none` when the column has no non-missing value. -/
def iqrFences (l : List ℚ) : Option (ℚ × ℚ) :=
  match quantileQ l (1/4), quantileQ l (3/4) with
  | some q1, some q3 => some (q1 - 3/2 * (q3 - q1), q3 + 3/2 * (q3 - q1))
  | _, _ => none

/-- Outlier clipping of one numeric column (`np.clip(x, lo, hi)`, lines
66-70): each non-missing value is clamped to the IQR fences of the very
column being clipped; `np.clip` computes `min (max x lo) hi`. -/
def clipColOpt (l : List (Option ℚ)) : List (Option ℚ) :=
  match iqrFences (l.filterMap id) with
  | some (lo, hi) => l.map (fun o => o.map (fun x => min (max x lo) hi))
  | none => l

/-- Preprocessing stage 1 (line 56): impute the columns that are numeric
at entry. -/
def stageImputed (t : Table) : Table := applyNumIn (numericNames t) imputeCol t

/-- Encoding of one column: an object column becomes its label-encoded
numeric column, a numeric column is untouched. -/
def encodeColC : Col → Col
  | Col.str v => Col.num (encodeCol v)
  | c => c

/-- Categorical encoding (lines 72-82, called at line 58): every object
column is replaced by its label-encoded numeric column. -/
def encodeTable (t : Table) : Table :=
  t.map (fun p => (p.1, encodeColC p.2))

/-- Preprocessing stage 2 (line 58). -/
def stageEncoded (t : Table) : Table := encodeTable (stageImputed t)

/-- Preprocessing stage 3 (line 60): derive the `MA_5` column from the
current `CLOSE` column. -/
def stageMA5 (t : Table) : Table :=
  setCol "MA_5" (Col.num (ma5 (getNumD (stageEncoded t) "CLOSE"))) (stageEncoded t)

/-- Preprocessing stage 4 (line 63): min-max scale the columns named in
`numeric_cols` — the list captured at line 55, before `MA_5` existed. -/
def stageScaled (t : Table) : Table := applyNumIn (numericNames t) scaleColQ (stageMA5 t)

/-- Full preprocessing of one company (`preprocess_data` body, lines
53-70): impute, encode, derive `MA_5`, scale, then clip, the scaled and
clipped column sets both being the numeric columns captured at entry. -/
def preprocessDf (t : Table) : Table :=
  applyNumIn (numericNames t) clipColOpt (stageScaled t)

/-- The per-column imputation medians used at line 56, an observable of
one company's table alone. -/
def mediansOf (t : Table) : List (String × Option ℚ) :=
  (numericNames t).map (fun n => (n, medianQ ((getNumD t n).filterMap id)))

/-- The per-column min-max scale bounds used at line 63 (computed on the
imputed data), an observable of one company's table alone. -/
def scaleBoundsOf (t : Table) : List (String × (Option ℚ × Option ℚ)) :=
  (numericNames t).map (fun n =>
    (n, (listMin ((getNumD (stageMA5 t) n).filterMap id),
         listMax ((getNumD (stageMA5 t) n).filterMap id))))

/-- The per-column IQR clipping fences used at lines 66-70 (computed on
the scaled data), an observable of one company's table alone. -/
def clipBoundsOf (t : Table) : List (String × Option (ℚ × ℚ)) :=
  (numericNames t).map (fun n =>
    (n, iqrFences ((getNumD (stageScaled t) n).filterMap id)))

/-- The 21 required headers of `collect_data` (lines 35-39). -/
def requiredHeaders : List String :=
  ["Company Name", "Series", "OPEN", "HIGH", "LOW", "CLOSE", "LAST",
   "PREVCLOSE", "TOTTRDQTY", "TOTTRDVAL", "TIMESTAMP", "TOTALTRADES",
   "ISIN", "Current Price", "S3", "S2", "S1", "Pivot", "R1", "R2", "R3"]

/-- Header validation (line 40):
`all(header in df.columns for header in required_headers)`. -/
def hasRequiredHeaders (t : Table) : Bool :=
  requiredHeaders.all (fun h => decide (h ∈ colNames t))

/-- The accumulating loop of `collect_data` (lines 33-43): append each
table that has every required header, skip the others. -/
def collectDataAux (acc : List Table) : List Table → List Table
  | [] => acc
  | t :: rest =>
    if hasRequiredHeaders t then collectDataAux (acc ++ [t]) rest
    else collectDataAux acc rest

/-- `collect_data` over already-read tables. -/
def collectData (ts : List Table) : List Table := collectDataAux [] ts

/-- `collect_data` including the `pd.read_csv(path)` call at line 34: an
input is `none` when its file is unreadable, in which case `read_csv`
raises and — there being no exception handler in `collect_data` or its
callers — the exception propagates, modelled by `Except.error`: the loop
stops and no table list is produced at all. -/
def collectDataEAux (acc : List Table) : List (Option Table) → Except String (List Table)
  | [] => Except.ok acc
  | none :: _ => Except.error "read failure"
  | some t :: rest =>
    if hasRequiredHeaders t then collectDataEAux (acc ++ [t]) rest
    else collectDataEAux acc rest

/-- `collect_data` from raw (possibly unreadable) inputs. -/
def collectDataE (inputs : List (Option Table)) : Except String (List Table) :=
  collectDataEAux [] inputs

/-- A fitted model (`RandomForestRegressor(n_estimators=100,
random_state=42).fit(df[['MA_5']], df['CLOSE'])`, lines 88-89).  With the
seed fixed the fit is a deterministic function of its training data, so
the model is represented by that data: the full `MA_5` feature column and
the full `CLOSE` target column.  (The real `fit` additionally raises a
`ValueError` when the feature matrix is empty or contains NaN; theorems
about that validation inspect `X` directly.) -/
structure Model where
  X : List (Option ℚ)
  y : List (Option ℚ)
deriving DecidableEq, Repr

/-- `build_models` for one company (lines 88-89): the fit receives every
row of the preprocessed table — there is no train/test split. -/
def buildModel (df : Table) : Model :=
  ⟨getNumD df "MA_5", getNumD df "CLOSE"⟩

/-- The decision kernel of `buy_or_sell` (lines 117-121) as a function of
the latest close (`current`, possibly NaN), the model prediction
(`future`) and the threshold.  `current_price` and `price_change` are
numpy float64 values, so a zero denominator does not raise: for
`current = 0` the ratio `(future - 0) / 0` is `+inf` when `future > 0`
(so `abs(ratio) >= threshold` holds and `ratio > 0` gives "Buy"), `-inf`
when `future < 0` (giving "Sell"), and `NaN` when `future = 0` (every
comparison with NaN is false, giving "Hold").  Likewise a NaN `current`
makes the ratio NaN, giving "Hold". -/
def decideAction (current : Option ℚ) (future threshold : ℚ) : String :=
  match current with
  | none => "Hold"
  | some c =>
    if c = 0 then
      if 0 < future then "Buy" else if future < 0 then "Sell" else "Hold"
    else
      let r := (future - c) / c
      if threshold ≤ |r| then (if 0 < r then "Buy" else "Sell") else "Hold"

/-- One company's entry in the `decisions` dictionary of `buy_or_sell`
(lines 123-128). `priceChange` stores the ratio; `none` models the
non-finite float (infinity or NaN) that arises when the current price is
zero or missing. -/
structure DecisionData where
  currentPrice : Option ℚ
  futurePrice : ℚ
  priceChange : Option ℚ
  decision : String
deriving DecidableEq, Repr

/-- The stored `price_change` value (line 117). -/
def priceChangeOpt (current : Option ℚ) (future : ℚ) : Option ℚ :=
  match current with
  | none => none
  | some c => if c = 0 then none else some ((future - c) / c)

/-- The dictionary key of a company's decision:
`df["Company Name"].iloc[0]` (line 113).  After preprocessing the
"Company Name" column is label-encoded, hence numeric. -/
def keyOf (df : Table) : Option ℚ := (getNumD df "Company Name").head?.join

/-- `df["CLOSE"].iloc[-1]` (line 114). -/
def lastCloseOf (df : Table) : Option ℚ := (getNumD df "CLOSE").getLast?.join

/-- The `MA_5` value of the last row (line 115 feeds
`df[["MA_5"]].iloc[[-1]]` to `predict`). -/
def lastMA5Of (df : Table) : Option ℚ := (getNumD df "MA_5").getLast?.join

/-- The body of the `buy_or_sell` loop for one company (lines 112-128),
parameterised by the regressor's (deterministic, seed-42) prediction
function. -/
def decideOne (predict : Model → Option ℚ → ℚ) (threshold : ℚ)
    (df : Table) (m : Model) : Option ℚ × DecisionData :=
  let current := lastCloseOf df
  let future := predict m (lastMA5Of df)
  (keyOf df,
   ⟨current, future, priceChangeOpt current future,
    decideAction current future threshold⟩)

/-- `buy_or_sell` (lines 101-129): one decision entry per company, the
`i`-th dataframe paired with the `i`-th model. -/
def buyOrSell (predict : Model → Option ℚ → ℚ) (threshold : ℚ)
    (dfs : List Table) (models : List Model) : List (Option ℚ × DecisionData) :=
  (dfs.zip models).map (fun p => decideOne predict threshold p.1 p.2)

/-- One entry of the `trades` dictionary of `execute_trades`
(lines 144-158). -/
structure TradeData where
  action : String
  price : Option ℚ
  futurePrice : ℚ
deriving DecidableEq, Repr

/-- The if/elif body of the `execute_trades` loop (lines 144-159): a
"Buy" or "Sell" decision yields a trade record carrying the action, the
current price and the future price; anything else yields nothing. -/
def tradeOf {α : Type} (p : α × DecisionData) : Option (α × TradeData) :=
  if p.2.decision = "Buy" then
    some (p.1, ⟨"Buy", p.2.currentPrice, p.2.futurePrice⟩)
  else if p.2.decision = "Sell" then
    some (p.1, ⟨"Sell", p.2.currentPrice, p.2.futurePrice⟩)
  else none

/-- `execute_trades` (lines 131-160) as a function of the decision set it
iterates over. -/
def executeTrades {α : Type} (ds : List (α × DecisionData)) : List (α × TradeData) :=
  ds.filterMap tradeOf

/-- The batch of preprocessed dataframes: `collect_data` then
`preprocess_data` (which loops over `self.dfs`). -/
def pipelineDfs (ts : List Table) : List Table :=
  (collectData ts).map preprocessDf

/-- The batch of models: `build_models` (a comprehension over
`self.dfs`). -/
def pipelineModels (ts : List Table) : List Model :=
  (pipelineDfs ts).map buildModel

/-- The batch decisions: `buy_or_sell()` with its default threshold
`0.05`, as called by `execute_trades`. -/
def pipelineDecisions (predict : Model → Option ℚ → ℚ) (ts : List Table) :
    List (Option ℚ × DecisionData) :=
  buyOrSell predict (1/20) (pipelineDfs ts) (pipelineModels ts)

/-- The batch trades (`execute_trades`). -/
def pipelineTrades (predict : Model → Option ℚ → ℚ) (ts : List Table) :
    List (Option ℚ × TradeData) :=
  executeTrades (pipelineDecisions predict ts)

/-- The batch of imputation medians, one entry per collected company. -/
def pipelineMedians (ts : List Table) : List (List (String × Option ℚ)) :=
  (collectData ts).map mediansOf

/-- The batch of scale bounds, one entry per collected company. -/
def pipelineScaleBounds (ts : List Table) : List (List (String × (Option ℚ × Option ℚ))) :=
  (collectData ts).map scaleBoundsOf

/-- The batch of clip fences, one entry per collected company. -/
def pipelineClipBounds (ts : List Table) : List (List (String × Option (ℚ × ℚ))) :=
  (collectData ts).map clipBoundsOf

/-! ### Plumbing lemmas: column lookups through the preprocessing stages -/

theorem getCol_applyNumIn (ns : List String) (f : List (Option ℚ) → List (Option ℚ))
    (t : Table) (n : String) :
    getCol (applyNumIn ns f t) n =
      (getCol t n).map (fun c => if n ∈ ns then mapNum f c else c) := by
  induction t with
  | nil => rfl
  | cons p t ih =>
    obtain ⟨k, c⟩ := p
    simp only [applyNumIn, List.map_cons] at *
    by_cases hns : k ∈ ns
    · rw [if_pos hns]
      by_cases hk : k = n
      · subst hk
        simp [getCol, hns]
      · simp only [getCol, if_neg hk]
        exact ih
    · rw [if_neg hns]
      by_cases hk : k = n
      · subst hk
        simp [getCol, hns]
      · simp only [getCol, if_neg hk]
        exact ih

theorem getCol_encodeTable (t : Table) (n : String) :
    getCol (encodeTable t) n = (getCol t n).map encodeColC := by
  induction t with
  | nil => rfl
  | cons p t ih =>
    obtain ⟨k, c⟩ := p
    simp only [encodeTable, List.map_cons] at *
    by_cases hk : k = n
    · subst hk
      simp [getCol]
    · simp only [getCol, if_neg hk]
      exact ih

theorem getCol_setCol (n : String) (c : Col) (t : Table) (m : String) :
    getCol (setCol n c t) m = if m = n then some c else getCol t m := by
  induction t with
  | nil =>
    simp only [setCol, getCol]
    by_cases hm : m = n
    · simp [hm]
    · simp [hm, Ne.symm hm]
  | cons p t ih =>
    obtain ⟨k, d⟩ := p
    by_cases hk : k = n
    · subst hk
      simp only [setCol, if_pos rfl, getCol]
      by_cases hm : m = k
      · simp [hm]
      · simp [hm, Ne.symm hm]
    · simp only [setCol, if_neg hk, getCol]
      by_cases hm : k = m
      · subst hm
        simp [hk]
      · simp [hm, ih]


theorem mem_numericNames_of_getCol {t : Table} {n : String} {v : List (Option ℚ)}
    (h : getCol t n = some (Col.num v)) : n ∈ numericNames t := by
  induction t with
  | nil => simp [getCol] at h
  | cons p t ih =>
    obtain ⟨k, c⟩ := p
    rw [numericNames, List.filterMap_cons]
    by_cases hk : k = n
    · subst hk
      rw [getCol, if_pos rfl] at h
      obtain rfl : c = Col.num v := by injection h
      simp
    · rw [getCol, if_neg hk] at h
      have hmem := ih h
      rw [numericNames] at hmem
      rcases c with w | w
      · exact List.mem_cons_of_mem _ hmem
      · exact hmem

theorem mem_colNames_of_mem_numericNames {t : Table} {n : String}
    (h : n ∈ numericNames t) : n ∈ colNames t := by
  rw [numericNames, List.mem_filterMap] at h
  obtain ⟨p, hp, hg⟩ := h
  obtain ⟨k, c⟩ := p
  rcases c with v | v
  · obtain rfl : k = n := by simpa using hg
    exact List.mem_map_of_mem _ hp
  · simp at hg

theorem getCol_stageImputed_num {t : Table} {n : String} {v : List (Option ℚ)}
    (h : getCol t n = some (Col.num v)) :
    getCol (stageImputed t) n = some (Col.num (imputeCol v)) := by
  rw [stageImputed, getCol_applyNumIn, h]
  simp [mem_numericNames_of_getCol h, mapNum]

theorem getCol_stageEncoded_num {t : Table} {n : String} {v : List (Option ℚ)}
    (h : getCol t n = some (Col.num v)) :
    getCol (stageEncoded t) n = some (Col.num (imputeCol v)) := by
  rw [stageEncoded, getCol_encodeTable, getCol_stageImputed_num h]
  rfl

theorem getCol_stageMA5_of_ne {t : Table} {n : String} (h : n ≠ "MA_5") :
    getCol (stageMA5 t) n = getCol (stageEncoded t) n := by
  rw [stageMA5, getCol_setCol]
  simp [h]

theorem getCol_stageMA5_self (t : Table) :
    getCol (stageMA5 t) "MA_5" =
      some (Col.num (ma5 (getNumD (stageEncoded t) "CLOSE"))) := by
  rw [stageMA5, getCol_setCol]
  simp

theorem getCol_preprocess_num {t : Table} {n : String} {v : List (Option ℚ)}
    (h : getCol t n = some (Col.num v)) (hne : n ≠ "MA_5") :
    getCol (preprocessDf t) n =
      some (Col.num (clipColOpt (scaleColQ (imputeCol v)))) := by
  have hmem := mem_numericNames_of_getCol h
  rw [preprocessDf, getCol_applyNumIn, stageScaled, getCol_applyNumIn,
    getCol_stageMA5_of_ne hne, getCol_stageEncoded_num h]
  simp [hmem, mapNum]

theorem getCol_preprocess_MA5 {t : Table} {cv : List (Option ℚ)}
    (hma : "MA_5" ∉ colNames t) (hclose : getCol t "CLOSE" = some (Col.num cv)) :
    getCol (preprocessDf t) "MA_5" = some (Col.num (ma5 (imputeCol cv))) := by
  have hnn : "MA_5" ∉ numericNames t := fun h => hma (mem_colNames_of_mem_numericNames h)
  have hcv : getNumD (stageEncoded t) "CLOSE" = imputeCol cv := by
    rw [getNumD, getCol_stageEncoded_num hclose]
  rw [preprocessDf, getCol_applyNumIn, stageScaled, getCol_applyNumIn,
    getCol_stageMA5_self, hcv]
  simp [hnn]

/-! ### Lemmas about column statistics and transforms -/

theorem listMin_eq_none {l : List ℚ} : listMin l = none ↔ l = [] := by
  cases l <;> simp [listMin]

theorem listMax_eq_none {l : List ℚ} : listMax l = none ↔ l = [] := by
  cases l <;> simp [listMax]

theorem listMin_le {l : List ℚ} {m x : ℚ} (hm : listMin l = some m) (hx : x ∈ l) :
    m ≤ x := by
  induction l generalizing m with
  | nil => simp at hx
  | cons y ys ih =>
    rcases List.mem_cons.mp hx with rfl | hx
    · cases h : listMin ys with
      | none =>
        rw [listMin, h] at hm
        injection hm with hm
        exact hm ▸ le_refl _
      | some m2 =>
        rw [listMin, h] at hm
        injection hm with hm
        exact hm ▸ min_le_left _ _
    · cases h : listMin ys with
      | none =>
        rcases listMin_eq_none.mp h with rfl
        simp at hx
      | some m2 =>
        rw [listMin, h] at hm
        injection hm with hm
        exact hm ▸ le_trans (min_le_right _ _) (ih h hx)

theorem le_listMax {l : List ℚ} {m x : ℚ} (hm : listMax l = some m) (hx : x ∈ l) :
    x ≤ m := by
  induction l generalizing m with
  | nil => simp at hx
  | cons y ys ih =>
    rcases List.mem_cons.mp hx with rfl | hx
    · cases h : listMax ys with
      | none =>
        rw [listMax, h] at hm
        injection hm with hm
        exact hm ▸ le_refl _
      | some m2 =>
        rw [listMax, h] at hm
        injection hm with hm
        exact hm ▸ le_max_left _ _
    · cases h : listMax ys with
      | none =>
        rcases listMax_eq_none.mp h with rfl
        simp at hx
      | some m2 =>
        rw [listMax, h] at hm
        injection hm with hm
        exact hm ▸ le_trans (ih h hx) (le_max_right _ _)

theorem scaleColQ_mem_unit {l : List (Option ℚ)} {x : ℚ}
    (ho : some x ∈ scaleColQ l) : 0 ≤ x ∧ x ≤ 1 := by
  rw [scaleColQ] at ho
  cases hmn : listMin (l.filterMap id) with
  | none =>
    rw [hmn] at ho
    have : l.filterMap id = [] := listMin_eq_none.mp hmn
    have hxl : x ∈ l.filterMap id := List.mem_filterMap.mpr ⟨some x, ho, rfl⟩
    rw [this] at hxl
    simp at hxl
  | some mn =>
    cases hmx : listMax (l.filterMap id) with
    | none =>
      rw [listMin_eq_none.mpr (listMax_eq_none.mp hmx)] at hmn
      exact Option.noConfusion hmn
    | some mx =>
      rw [hmn, hmx] at ho
      obtain ⟨o, hol, hfo⟩ := List.mem_map.mp ho
      cases o with
      | none => simp at hfo
      | some x0 =>
        simp only [Option.some_bind] at hfo
        by_cases hc : mx = mn
        · simp [hc] at hfo
        · rw [if_neg hc] at hfo
          injection hfo with hfo
          have hx0 : x0 ∈ l.filterMap id := List.mem_filterMap.mpr ⟨some x0, hol, rfl⟩
          have h1 : mn ≤ x0 := listMin_le hmn hx0
          have h2 : x0 ≤ mx := le_listMax hmx hx0
          have hlt : mn < mx := lt_of_le_of_ne (le_trans h1 h2) (Ne.symm hc)
          subst hfo
          constructor
          · exact div_nonneg (sub_nonneg.mpr h1) (le_of_lt (sub_pos.mpr hlt))
          · rw [div_le_one (sub_pos.mpr hlt)]
            exact sub_le_sub_right h2 mn

theorem imputeCol_length (l : List (Option ℚ)) : (imputeCol l).length = l.length := by
  rw [imputeCol]
  cases medianQ (l.filterMap id) <;> simp

theorem ma5_length (l : List (Option ℚ)) : (ma5 l).length = l.length := by
  rw [ma5]
  simp

theorem scaleColQ_length (l : List (Option ℚ)) : (scaleColQ l).length = l.length := by
  rw [scaleColQ]
  cases listMin (l.filterMap id) <;> cases listMax (l.filterMap id) <;> simp

theorem clipColOpt_length (l : List (Option ℚ)) : (clipColOpt l).length = l.length := by
  rw [clipColOpt]
  cases h : iqrFences (l.filterMap id) with
  | none => rfl
  | some p =>
    obtain ⟨lo, hi⟩ := p
    simp

theorem ma5_getElem_lt4 {l : List (Option ℚ)} {i : ℕ} (h4 : i < 4) (hl : i < l.length) :
    (ma5 l)[i]? = some none := by
  rw [ma5, List.getElem?_map, List.getElem?_range hl]
  have : i + 1 < 5 := by omega
  simp [this]

/-! ### Lemmas about the loader and batch plumbing -/

theorem collectDataAux_eq (ts : List Table) (acc : List Table) :
    collectDataAux acc ts = acc ++ ts.filter hasRequiredHeaders := by
  induction ts generalizing acc with
  | nil => simp [collectDataAux]
  | cons t rest ih =>
    by_cases h : hasRequiredHeaders t <;>
      simp [collectDataAux, List.filter_cons, h, ih]

theorem collectData_eq_filter (ts : List Table) :
    collectData ts = ts.filter hasRequiredHeaders := by
  simpa using collectDataAux_eq ts []

theorem collectDataEAux_error {inputs : List (Option Table)} (h : none ∈ inputs)
    (acc : List Table) : collectDataEAux acc inputs = Except.error "read failure" := by
  induction inputs generalizing acc with
  | nil => simp at h
  | cons o rest ih =>
    cases o with
    | none => rfl
    | some t =>
      have h2 : none ∈ rest := by
        rcases List.mem_cons.mp h with h1 | h2
        · exact absurd h1 (by simp)
        · exact h2
      rw [collectDataEAux]
      split
      · exact ih h2 _
      · exact ih h2 _

theorem zip_self_map {α β : Type} (L : List α) (g : α → β) :
    L.zip (L.map g) = L.map (fun x => (x, g x)) := by
  induction L with
  | nil => rfl
  | cons a L ih => simp [ih]

/-- The decision `buy_or_sell` computes for one collected table: the
composition of preprocessing, fitting and the decision step, a function
of that single company's table. -/
def companyDecision (predict : Model → Option ℚ → ℚ) (t : Table) :
    Option ℚ × DecisionData :=
  decideOne predict (1/20) (preprocessDf t) (buildModel (preprocessDf t))

theorem pipelineDecisions_eq_map (predict : Model → Option ℚ → ℚ) (ts : List Table) :
    pipelineDecisions predict ts = (collectData ts).map (companyDecision predict) := by
  rw [pipelineDecisions, buyOrSell, pipelineModels, pipelineDfs, zip_self_map]
  simp [List.map_map, companyDecision, Function.comp]

/-! ### Concrete tables used as witnesses and counterexamples -/

/-- A well-formed six-row company table with all 21 required columns. -/
def sample6 : Table :=
  [("Company Name", Col.str ["ACME", "ACME", "ACME", "ACME", "ACME", "ACME"]),
   ("Series", Col.str ["EQ", "EQ", "EQ", "EQ", "EQ", "EQ"]),
   ("OPEN", Col.num [some 1, some 2, some 1, some 2, some 1, some 2]),
   ("HIGH", Col.num [some 2, some 3, some 2, some 3, some 2, some 3]),
   ("LOW", Col.num [some 0, some 1, some 0, some 1, some 0, some 1]),
   ("CLOSE", Col.num [some 10, some 20, some 30, some 40, some 50, some 60]),
   ("LAST", Col.num [some 1, some 2, some 1, some 2, some 1, some 2]),
   ("PREVCLOSE", Col.num [some 1, some 2, some 1, some 2, some 1, some 2]),
   ("TOTTRDQTY", Col.num [some 5, some 6, some 7, some 8, some 9, some 10]),
   ("TOTTRDVAL", Col.num [some 5, some 6, some 7, some 8, some 9, some 10]),
   ("TIMESTAMP", Col.str ["d1", "d2", "d3", "d4", "d5", "d6"]),
   ("TOTALTRADES", Col.num [some 1, some 2, some 3, some 4, some 5, some 6]),
   ("ISIN", Col.str ["X1", "X1", "X1", "X1", "X1", "X1"]),
   ("Current Price", Col.num [some 3, some 4, some 5, some 6, some 7, some 8]),
   ("S3", Col.num [some 1, some 1, some 2, some 2, some 3, some 3]),
   ("S2", Col.num [some 1, some 1, some 2, some 2, some 3, some 3]),
   ("S1", Col.num [some 1, some 1, some 2, some 2, some 3, some 3]),
   ("Pivot", Col.num [some 1, some 1, some 2, some 2, some 3, some 3]),
   ("R1", Col.num [some 1, some 1, some 2, some 2, some 3, some 3]),
   ("R2", Col.num [some 1, some 1, some 2, some 2, some 3, some 3]),
   ("R3", Col.num [some 1, some 1, some 2, some 2, some 3, some 3])]

/-- A second well-formed company table whose rows differ from `sample6`
everywhere; used to exercise the isolation property. -/
def sampleB : Table :=
  [("Company Name", Col.str ["OTHER", "OTHER", "OTHER"]),
   ("Series", Col.str ["BE", "BE", "BE"]),
   ("OPEN", Col.num [some 7, some 8, some 9]),
   ("HIGH", Col.num [some 9, some 9, some 9]),
   ("LOW", Col.num [some 4, some 4, some 4]),
   ("CLOSE", Col.num [some 100, some 200, some 300]),
   ("LAST", Col.num [some 7, some 8, some 9]),
   ("PREVCLOSE", Col.num [some 7, some 8, some 9]),
   ("TOTTRDQTY", Col.num [some 50, some 60, some 70]),
   ("TOTTRDVAL", Col.num [some 50, some 60, some 70]),
   ("TIMESTAMP", Col.str ["e1", "e2", "e3"]),
   ("TOTALTRADES", Col.num [some 10, some 20, some 30]),
   ("ISIN", Col.str ["Y2", "Y2", "Y2"]),
   ("Current Price", Col.num [some 30, some 40, some 50]),
   ("S3", Col.num [some 11, some 11, some 12]),
   ("S2", Col.num [some 11, some 11, some 12]),
   ("S1", Col.num [some 11, some 11, some 12]),
   ("Pivot", Col.num [some 11, some 11, some 12]),
   ("R1", Col.num [some 11, some 11, some 12]),
   ("R2", Col.num [some 11, some 11, some 12]),
   ("R3", Col.num [some 11, some 11, some 12])]

/-- `sample6` with the "ISIN" column removed: a malformed table. -/
def noIsin : Table := sample6.filter (fun p => p.1 ≠ "ISIN")

/-- A table with every required header and zero rows. -/
def emptyRows21 : Table :=
  [("Company Name", Col.str []), ("Series", Col.str []), ("OPEN", Col.num []),
   ("HIGH", Col.num []), ("LOW", Col.num []), ("CLOSE", Col.num []),
   ("LAST", Col.num []), ("PREVCLOSE", Col.num []), ("TOTTRDQTY", Col.num []),
   ("TOTTRDVAL", Col.num []), ("TIMESTAMP", Col.str []), ("TOTALTRADES", Col.num []),
   ("ISIN", Col.str []), ("Current Price", Col.num []), ("S3", Col.num []),
   ("S2", Col.num []), ("S1", Col.num []), ("Pivot", Col.num []),
   ("R1", Col.num []), ("R2", Col.num []), ("R3", Col.num [])]

/-- `sample6` with a 22nd, non-required column added. -/
def extra22 : Table :=
  sample6 ++ [("EXTRA", Col.num [some 1, some 2, some 3, some 4, some 5, some 6])]

/-- A 21-column table whose CLOSE column is constant (every value 5). -/
def constT21 : Table :=
  [("Company Name", Col.str ["CONST", "CONST", "CONST", "CONST", "CONST"]),
   ("Series", Col.str ["EQ", "EQ", "EQ", "EQ", "EQ"]),
   ("OPEN", Col.num [some 1, some 2, some 1, some 2, some 1]),
   ("HIGH", Col.num [some 2, some 3, some 2, some 3, some 2]),
   ("LOW", Col.num [some 0, some 1, some 0, some 1, some 0]),
   ("CLOSE", Col.num [some 5, some 5, some 5, some 5, some 5]),
   ("LAST", Col.num [some 1, some 2, some 1, some 2, some 1]),
   ("PREVCLOSE", Col.num [some 1, some 2, some 1, some 2, some 1]),
   ("TOTTRDQTY", Col.num [some 5, some 6, some 7, some 8, some 9]),
   ("TOTTRDVAL", Col.num [some 5, some 6, some 7, some 8, some 9]),
   ("TIMESTAMP", Col.str ["d1", "d2", "d3", "d4", "d5"]),
   ("TOTALTRADES", Col.num [some 1, some 2, some 3, some 4, some 5]),
   ("ISIN", Col.str ["X1", "X1", "X1", "X1", "X1"]),
   ("Current Price", Col.num [some 3, some 4, some 5, some 6, some 7]),
   ("S3", Col.num [some 1, some 1, some 2, some 2, some 3]),
   ("S2", Col.num [some 1, some 1, some 2, some 2, some 3]),
   ("S1", Col.num [some 1, some 1, some 2, some 2, some 3]),
   ("Pivot", Col.num [some 1, some 1, some 2, some 2, some 3]),
   ("R1", Col.num [some 1, some 1, some 2, some 2, some 3]),
   ("R2", Col.num [some 1, some 1, some 2, some 2, some 3]),
   ("R3", Col.num [some 1, some 1, some 2, some 2, some 3])]

/-- A small table whose latest CLOSE value is 0, as arises after min-max
scaling whenever the last row holds the column minimum. -/
def zeroCloseDf : Table :=
  [("Company Name", Col.num [some 0, some 0]),
   ("CLOSE", Col.num [some 1, some 0]),
   ("MA_5", Col.num [some 1, some 1])]

/-! ### Claim theorems -/

/-- C1: for every company the decision is computed from
PriceChange = (FuturePrice - CurrentPrice) / CurrentPrice; when
|PriceChange| is at least the threshold (default 0.05) the action is
"Buy" for a positive change and "Sell" otherwise, and below the
threshold it is "Hold"; in particular CurrentPrice 100 with FuturePrice
106 gives "Buy" and CurrentPrice 100 with FuturePrice 97 gives "Hold". -/
theorem claim1_decision_rule :
    (∀ c f th : ℚ, c ≠ 0 →
      ((th ≤ |(f - c) / c| →
          decideAction (some c) f th = (if 0 < (f - c) / c then "Buy" else "Sell")) ∧
       (|(f - c) / c| < th → decideAction (some c) f th = "Hold"))) ∧
    (∀ (predict : Model → Option ℚ → ℚ) (df : Table) (m : Model),
      (decideOne predict (1/20) df m).2.decision =
        decideAction (lastCloseOf df) (predict m (lastMA5Of df)) (1/20)) ∧
    decideAction (some 100) 106 (1/20) = "Buy" ∧
    decideAction (some 100) 97 (1/20) = "Hold" := by
  refine ⟨fun c f th hc => ⟨fun hth => ?_, fun hth => ?_⟩, fun predict df m => rfl, ?_, ?_⟩
  · simp [decideAction, hc, hth]
  · simp [decideAction, hc, not_le.mpr hth]
  · have habs : |(3:ℚ)/50| = 3/50 := abs_of_pos (by norm_num)
    norm_num [decideAction, habs]
  · have habs : |(3:ℚ)/100| = 3/100 := abs_of_pos (by norm_num)
    norm_num [decideAction, habs]

/-- Witness for C1: the rule applied at CurrentPrice 100, FuturePrice 106,
threshold 1/20 (the ratio 0.06 clears the threshold). -/
theorem claim1_witness :
    decideAction (some 100) 106 (1/20) = (if 0 < ((106:ℚ) - 100) / 100 then "Buy" else "Sell") :=
  (claim1_decision_rule.1 100 106 (1/20) (by norm_num)).1 (by
    have h1 : ((106:ℚ) - 100) / 100 = 3/50 := by norm_num
    rw [h1, abs_of_pos (by norm_num : (0:ℚ) < 3/50)]
    norm_num)

/-- C2 (code bug): preprocessing a company whose CLOSE column is constant
(all values 5) scales that column to 0/0 = NaN for every row — not to the
defined constant 0 — and the NaN column then reaches the model fit, where
scikit-learn's input validation raises on NaN, so training does not
complete. -/
theorem claim2_constant_close_nan :
    getCol (preprocessDf constT21) "CLOSE" = some (Col.num [none, none, none, none, none]) ∧
    ([none, none, none, none, none] : List (Option ℚ)) ≠
      [some 0, some 0, some 0, some 0, some 0] ∧
    (buildModel (preprocessDf constT21)).y = [none, none, none, none, none] := by
  have h : getCol (preprocessDf constT21) "CLOSE" =
      some (Col.num (clipColOpt (scaleColQ (imputeCol
        [some 5, some 5, some 5, some 5, some 5])))) :=
    @getCol_preprocess_num constT21 "CLOSE" [some 5, some 5, some 5, some 5, some 5]
      (by decide) (by decide)
  have hval : clipColOpt (scaleColQ (imputeCol
      ([some 5, some 5, some 5, some 5, some 5] : List (Option ℚ)))) =
      [none, none, none, none, none] := by
    norm_num [imputeCol, medianQ, sortQ, insertSorted, scaleColQ, listMin, listMax,
      clipColOpt, iqrFences, quantileQ, List.filterMap_cons, Option.getD]
  refine ⟨by rw [h, hval], by decide, ?_⟩
  rw [buildModel]
  show getNumD (preprocessDf constT21) "CLOSE" = _
  rw [getNumD, h, hval]

/-- C3 counterexample: a company whose latest CLOSE is 0 (which scaling
produces whenever the last row holds the column minimum) and whose model
predicts a positive price is decided "Buy", not "Hold": the float ratio
(1 - 0)/0 is +infinity, which passes the threshold test. -/
theorem claim3_counterexample :
    lastCloseOf zeroCloseDf = some 0 ∧
    (decideOne (fun _ _ => (1:ℚ)) (1/20) zeroCloseDf ⟨[], []⟩).2.decision = "Buy" ∧
    "Buy" ≠ "Hold" := by
  have h : lastCloseOf zeroCloseDf = some 0 := by decide
  refine ⟨h, ?_, by decide⟩
  show decideAction (lastCloseOf zeroCloseDf) 1 (1/20) = "Buy"
  rw [h]
  norm_num [decideAction]

/-- C3 as amended: when the latest CLOSE is 0, the ratio is a non-finite
float (infinite for a nonzero prediction, NaN for a zero prediction) and
the decision is "Buy" for a positive prediction, "Sell" for a negative
one, and "Hold" only when the prediction is exactly 0. -/
theorem claim3_amended (predict : Model → Option ℚ → ℚ) (df : Table) (m : Model)
    (h : lastCloseOf df = some 0) :
    (decideOne predict (1/20) df m).2.decision =
      (if 0 < predict m (lastMA5Of df) then "Buy"
       else if predict m (lastMA5Of df) < 0 then "Sell" else "Hold") := by
  show decideAction (lastCloseOf df) (predict m (lastMA5Of df)) (1/20) = _
  rw [h]
  simp [decideAction]

/-- Witness for the amended C3 at a concrete zero-close table and the
constant prediction 1. -/
theorem claim3_amended_witness :
    (decideOne (fun _ _ => (1:ℚ)) (1/20) zeroCloseDf ⟨[], []⟩).2.decision =
      (if 0 < (1:ℚ) then "Buy" else if (1:ℚ) < 0 then "Sell" else "Hold") :=
  claim3_amended (fun _ _ => (1:ℚ)) zeroCloseDf ⟨[], []⟩ (by decide)

/-- C4: company isolation.  If the same company table `A` is collected at
position `j1` of one run and `j2` of another (the other inputs differing
arbitrarily), then every derived value for `A` — preprocessed dataframe
(hence imputation medians, scale bounds and clip fences), fitted model and
decision — is a function of `A` alone and is identical in the two runs. -/
theorem claim4_isolation (predict : Model → Option ℚ → ℚ) (ts1 ts2 : List Table)
    (j1 j2 : ℕ) (A : Table)
    (h1 : (collectData ts1)[j1]? = some A) (h2 : (collectData ts2)[j2]? = some A) :
    (pipelineDfs ts1)[j1]? = some (preprocessDf A) ∧
    (pipelineDfs ts2)[j2]? = (pipelineDfs ts1)[j1]? ∧
    (pipelineModels ts1)[j1]? = some (buildModel (preprocessDf A)) ∧
    (pipelineModels ts2)[j2]? = (pipelineModels ts1)[j1]? ∧
    (pipelineMedians ts1)[j1]? = some (mediansOf A) ∧
    (pipelineMedians ts2)[j2]? = (pipelineMedians ts1)[j1]? ∧
    (pipelineScaleBounds ts1)[j1]? = some (scaleBoundsOf A) ∧
    (pipelineScaleBounds ts2)[j2]? = (pipelineScaleBounds ts1)[j1]? ∧
    (pipelineClipBounds ts1)[j1]? = some (clipBoundsOf A) ∧
    (pipelineClipBounds ts2)[j2]? = (pipelineClipBounds ts1)[j1]? ∧
    (pipelineDecisions predict ts1)[j1]? = some (companyDecision predict A) ∧
    (pipelineDecisions predict ts2)[j2]? = (pipelineDecisions predict ts1)[j1]? := by
  have d1 : (pipelineDfs ts1)[j1]? = some (preprocessDf A) := by
    rw [pipelineDfs, List.getElem?_map, h1]
    rfl
  have d2 : (pipelineDfs ts2)[j2]? = some (preprocessDf A) := by
    rw [pipelineDfs, List.getElem?_map, h2]
    rfl
  have m1 : (pipelineModels ts1)[j1]? = some (buildModel (preprocessDf A)) := by
    rw [pipelineModels, List.getElem?_map, d1]
    rfl
  have m2 : (pipelineModels ts2)[j2]? = some (buildModel (preprocessDf A)) := by
    rw [pipelineModels, List.getElem?_map, d2]
    rfl
  have e1 : (pipelineDecisions predict ts1)[j1]? = some (companyDecision predict A) := by
    rw [pipelineDecisions_eq_map, List.getElem?_map, h1]
    rfl
  have e2 : (pipelineDecisions predict ts2)[j2]? = some (companyDecision predict A) := by
    rw [pipelineDecisions_eq_map, List.getElem?_map, h2]
    rfl
  have md1 : (pipelineMedians ts1)[j1]? = some (mediansOf A) := by
    rw [pipelineMedians, List.getElem?_map, h1]
    rfl
  have md2 : (pipelineMedians ts2)[j2]? = some (mediansOf A) := by
    rw [pipelineMedians, List.getElem?_map, h2]
    rfl
  have sb1 : (pipelineScaleBounds ts1)[j1]? = some (scaleBoundsOf A) := by
    rw [pipelineScaleBounds, List.getElem?_map, h1]
    rfl
  have sb2 : (pipelineScaleBounds ts2)[j2]? = some (scaleBoundsOf A) := by
    rw [pipelineScaleBounds, List.getElem?_map, h2]
    rfl
  have cb1 : (pipelineClipBounds ts1)[j1]? = some (clipBoundsOf A) := by
    rw [pipelineClipBounds, List.getElem?_map, h1]
    rfl
  have cb2 : (pipelineClipBounds ts2)[j2]? = some (clipBoundsOf A) := by
    rw [pipelineClipBounds, List.getElem?_map, h2]
    rfl
  exact ⟨d1, d2.trans d1.symm, m1, m2.trans m1.symm, md1, md2.trans md1.symm,
    sb1, sb2.trans sb1.symm, cb1, cb2.trans cb1.symm, e1, e2.trans e1.symm⟩

/-- Witness for C4: `sample6` alone versus `sample6` behind the entirely
different company `sampleB`; every derived value for `sample6` coincides. -/
theorem claim4_witness :
    (pipelineDfs [sample6])[0]? = some (preprocessDf sample6) ∧
    (pipelineDfs [sampleB, sample6])[1]? = (pipelineDfs [sample6])[0]? ∧
    (pipelineModels [sample6])[0]? = some (buildModel (preprocessDf sample6)) ∧
    (pipelineModels [sampleB, sample6])[1]? = (pipelineModels [sample6])[0]? ∧
    (pipelineMedians [sample6])[0]? = some (mediansOf sample6) ∧
    (pipelineMedians [sampleB, sample6])[1]? = (pipelineMedians [sample6])[0]? ∧
    (pipelineScaleBounds [sample6])[0]? = some (scaleBoundsOf sample6) ∧
    (pipelineScaleBounds [sampleB, sample6])[1]? = (pipelineScaleBounds [sample6])[0]? ∧
    (pipelineClipBounds [sample6])[0]? = some (clipBoundsOf sample6) ∧
    (pipelineClipBounds [sampleB, sample6])[1]? = (pipelineClipBounds [sample6])[0]? ∧
    (pipelineDecisions (fun _ _ => 0) [sample6])[0]? =
      some (companyDecision (fun _ _ => 0) sample6) ∧
    (pipelineDecisions (fun _ _ => 0) [sampleB, sample6])[1]? =
      (pipelineDecisions (fun _ _ => 0) [sample6])[0]? :=
  claim4_isolation (fun _ _ => 0) [sample6] [sampleB, sample6] 0 1 sample6
    (by decide) (by decide)

/-- C5 counterexample: for the six-row table `sample6` the fit of
build_models receives the entire `MA_5` column — all six rows, so there
is no 80/20 train/test split — and its first four entries are the
undefined (NaN) rolling-mean values, which are passed straight into the
fit rather than excluded or specially handled. -/
theorem claim5_counterexample :
    (buildModel (preprocessDf sample6)).X =
      [none, none, none, none, some 30, some 40] ∧
    (buildModel (preprocessDf sample6)).X.length = 6 ∧
    (getNumD sample6 "CLOSE").length = 6 := by
  have h : getCol (preprocessDf sample6) "MA_5" =
      some (Col.num (ma5 (imputeCol
        [some 10, some 20, some 30, some 40, some 50, some 60]))) :=
    getCol_preprocess_MA5 (by decide) (by decide)
  have hval : ma5 (imputeCol
      ([some 10, some 20, some 30, some 40, some 50, some 60] : List (Option ℚ))) =
      [none, none, none, none, some 30, some 40] := by
    norm_num [ma5, imputeCol, medianQ, sortQ, insertSorted, List.range,
      List.range.loop, List.filterMap_cons, Option.getD]
  have hx : (buildModel (preprocessDf sample6)).X =
      [none, none, none, none, some 30, some 40] := by
    rw [buildModel]
    show getNumD (preprocessDf sample6) "MA_5" = _
    rw [getNumD, h, hval]
  exact ⟨hx, by rw [hx]; rfl, by decide⟩

/-- C5 as amended: build_models performs no train/test split — the fit
receives the feature column of every row of the preprocessed table (the
only fixed seed is the regressor's own random_state=42) — and the rows
whose `MA_5` is undefined (the first four, and all rows of shorter
tables) are included in that input as NaN entries rather than excluded
or specially handled. -/
theorem claim5_amended (t : Table) (cv : List (Option ℚ))
    (hma : "MA_5" ∉ colNames t) (hclose : getCol t "CLOSE" = some (Col.num cv)) :
    (buildModel (preprocessDf t)).X = ma5 (imputeCol cv) ∧
    (buildModel (preprocessDf t)).X.length = cv.length ∧
    (∀ i : ℕ, i < 4 → i < cv.length → (buildModel (preprocessDf t)).X[i]? = some none) := by
  have hx : (buildModel (preprocessDf t)).X = ma5 (imputeCol cv) := by
    rw [buildModel]
    show getNumD (preprocessDf t) "MA_5" = _
    rw [getNumD, getCol_preprocess_MA5 hma hclose]
  refine ⟨hx, by rw [hx, ma5_length, imputeCol_length], fun i h4 hl => ?_⟩
  rw [hx]
  exact ma5_getElem_lt4 h4 (by rw [imputeCol_length]; exact hl)

/-- Witness for the amended C5 at `sample6`: the first fit input entry is
the undefined `MA_5` value of row 0. -/
theorem claim5_amended_witness :
    (buildModel (preprocessDf sample6)).X[0]? = some none :=
  (claim5_amended sample6 [some 10, some 20, some 30, some 40, some 50, some 60]
    (by decide) (by decide)).2.2 0 (by norm_num) (by norm_num)

/-- C6 counterexample: after preprocessing `sample6`, `MA_5` is a numeric
column of the table whose fifth value is 30 — far outside [0,1] — because
`numeric_cols` is captured before `MA_5` is created, so the derived column
is never min-max scaled (nor clipped): the value 30 is a raw rolling mean,
not a clipping artifact of a scaled column. -/
theorem claim6_counterexample :
    getCol (preprocessDf sample6) "MA_5" =
      some (Col.num [none, none, none, none, some 30, some 40]) ∧
    "MA_5" ∈ numericNames (preprocessDf sample6) ∧
    ¬ ((30:ℚ) ≤ 1) := by
  have h : getCol (preprocessDf sample6) "MA_5" =
      some (Col.num (ma5 (imputeCol
        [some 10, some 20, some 30, some 40, some 50, some 60]))) :=
    getCol_preprocess_MA5 (by decide) (by decide)
  have hval : ma5 (imputeCol
      ([some 10, some 20, some 30, some 40, some 50, some 60] : List (Option ℚ))) =
      [none, none, none, none, some 30, some 40] := by
    norm_num [ma5, imputeCol, medianQ, sortQ, insertSorted, List.range,
      List.range.loop, List.filterMap_cons, Option.getD]
  have h2 : getCol (preprocessDf sample6) "MA_5" =
      some (Col.num [none, none, none, none, some 30, some 40]) := by rw [h, hval]
  exact ⟨h2, mem_numericNames_of_getCol h2, by norm_num⟩

/-- C6 as amended: every column that is numeric at the start of
preprocessing is imputed, min-max scaled — every defined scaled value
lies in [0,1] — and then clipped to IQR fences computed from the
already-scaled column; the derived `MA_5` column, created after
`numeric_cols` is captured, is excluded from scaling and clipping and
keeps raw-scale values. -/
theorem claim6_amended (t : Table) (n : String) (v : List (Option ℚ))
    (hn : getCol t n = some (Col.num v)) (hne : n ≠ "MA_5") :
    getCol (preprocessDf t) n =
      some (Col.num (clipColOpt (scaleColQ (imputeCol v)))) ∧
    ∀ x : ℚ, some x ∈ scaleColQ (imputeCol v) → 0 ≤ x ∧ x ≤ 1 :=
  ⟨getCol_preprocess_num hn hne, fun _ hx => scaleColQ_mem_unit hx⟩

/-- Witness for the amended C6 at the OPEN column of `sample6`. -/
theorem claim6_amended_witness :
    getCol (preprocessDf sample6) "OPEN" =
      some (Col.num (clipColOpt (scaleColQ (imputeCol
        [some 1, some 2, some 1, some 2, some 1, some 2])))) :=
  (claim6_amended sample6 "OPEN" [some 1, some 2, some 1, some 2, some 1, some 2]
    (by decide) (by decide)).1

/-- C7: a table missing a required column (here `noIsin`, which lacks
"ISIN") is excluded wholesale from the collected batch — it contributes
no dataset (and hence no model or decision, all downstream stages being
maps over the collected list) — tables are never partially filtered, any
table with all required columns is retained, and the decision stage
yields exactly one decision per collected table. -/
theorem claim7_loader (ts : List Table) (t : Table) :
    (hasRequiredHeaders t = false → t ∉ collectData ts) ∧
    (t ∈ collectData ts → t ∈ ts) ∧
    (t ∈ ts → hasRequiredHeaders t = true → t ∈ collectData ts) ∧
    (∀ predict : Model → Option ℚ → ℚ,
      (pipelineDecisions predict ts).length = (collectData ts).length) ∧
    hasRequiredHeaders noIsin = false ∧
    "ISIN" ∉ colNames noIsin ∧
    collectData [noIsin, sample6] = [sample6] := by
  refine ⟨?_, ?_, ?_, ?_, by decide, by decide, by decide⟩
  · intro hf hmem
    rw [collectData_eq_filter] at hmem
    have hmem2 := (List.mem_filter.mp hmem).2
    rw [hf] at hmem2
    exact Bool.noConfusion hmem2
  · intro hmem
    rw [collectData_eq_filter] at hmem
    exact (List.mem_filter.mp hmem).1
  · intro hmem hreq
    rw [collectData_eq_filter]
    exact List.mem_filter.mpr ⟨hmem, hreq⟩
  · intro predict
    rw [pipelineDecisions_eq_map, List.length_map]

/-- Witness for C7: `sample6` is still collected from the batch that also
contains the malformed `noIsin` table. -/
theorem claim7_witness : sample6 ∈ collectData [noIsin, sample6] :=
  (claim7_loader [noIsin, sample6] sample6).2.2.1 (by decide) (by decide)

/-- C8 counterexample: an unreadable file (the `none` input, on which
`pd.read_csv` raises) does not surface as a skip of that path only: there
is no exception handler in `collect_data`, so the whole batch aborts and
even the perfectly well-formed `sample6` produces no dataset. -/
theorem claim8_counterexample :
    collectDataE [some sample6, none] = Except.error "read failure" ∧
    hasRequiredHeaders sample6 = true :=
  ⟨collectDataEAux_error (by simp) [], by decide⟩

/-- C8 as amended: an unreadable file anywhere in the input aborts
`collect_data` for the entire batch (the `read_csv` exception propagates,
and no company is collected); and a zero-row table with all required
headers is not excluded — it is collected and reaches the Model Trainer,
whose fit then receives an empty feature matrix (which scikit-learn's
input validation rejects at runtime). -/
theorem claim8_amended (inputs : List (Option Table)) (h : none ∈ inputs) :
    collectDataE inputs = Except.error "read failure" ∧
    collectData [emptyRows21] = [emptyRows21] ∧
    (buildModel (preprocessDf emptyRows21)).X = [] := by
  refine ⟨collectDataEAux_error h [], by decide, ?_⟩
  have h2 : getCol (preprocessDf emptyRows21) "MA_5" =
      some (Col.num (ma5 (imputeCol []))) :=
    getCol_preprocess_MA5 (by decide) (by decide)
  rw [buildModel]
  show getNumD (preprocessDf emptyRows21) "MA_5" = _
  rw [getNumD, h2]
  rfl

/-- Witness for the amended C8: a batch consisting of one unreadable path
produces no table list at all. -/
theorem claim8_amended_witness : collectDataE [none] = Except.error "read failure" :=
  (claim8_amended [none] (by simp)).1

/-- C9: trade materialization is a pure projection of the decision set:
a company/trade pair is emitted exactly when that company's decision is
"Buy" or "Sell" (every "Hold" is dropped), the record carrying the
Action, Price = CurrentPrice and FuturePrice; in particular the decision
set A: Buy, B: Hold, C: Sell yields exactly the two records for A and C. -/
theorem claim9_trade_projection :
    (∀ (ds : List (String × DecisionData)) (c : String) (tr : TradeData),
      (c, tr) ∈ executeTrades ds ↔
        ∃ d : DecisionData, (c, d) ∈ ds ∧
          (d.decision = "Buy" ∨ d.decision = "Sell") ∧
          tr = ⟨d.decision, d.currentPrice, d.futurePrice⟩) ∧
    executeTrades
      [("A", ⟨some 1, 2, some 1, "Buy"⟩),
       ("B", ⟨some 1, 1, some 0, "Hold"⟩),
       ("C", ⟨some 2, 0, some 1, "Sell"⟩)] =
      [("A", ⟨"Buy", some 1, 2⟩), ("C", ⟨"Sell", some 2, 0⟩)] := by
  constructor
  · intro ds c tr
    rw [executeTrades, List.mem_filterMap]
    constructor
    · rintro ⟨⟨c0, d⟩, hp, hf⟩
      rw [tradeOf] at hf
      by_cases hb : d.decision = "Buy"
      · rw [if_pos hb] at hf
        injection hf with hf
        rw [Prod.ext_iff] at hf
        obtain ⟨hc, htr⟩ := hf
        dsimp at hc htr
        subst hc
        exact ⟨d, hp, Or.inl hb, by rw [← htr, hb]⟩
      · rw [if_neg hb] at hf
        by_cases hs : d.decision = "Sell"
        · rw [if_pos hs] at hf
          injection hf with hf
          rw [Prod.ext_iff] at hf
          obtain ⟨hc, htr⟩ := hf
          dsimp at hc htr
          subst hc
          exact ⟨d, hp, Or.inr hs, by rw [← htr, hs]⟩
        · rw [if_neg hs] at hf
          exact Option.noConfusion hf
    · rintro ⟨d, hd, hor, htr⟩
      refine ⟨(c, d), hd, ?_⟩
      rw [tradeOf]
      rcases hor with hb | hs
      · rw [if_pos hb, htr, hb]
      · have hnb : ¬ d.decision = "Buy" := by rw [hs]; decide
        rw [if_neg hnb, if_pos hs, htr, hs]
  · decide

/-- C10 (implicit): the loader's acceptance test depends only on the
header set — never on row contents or column order — holding exactly when
every one of the 21 required headers occurs among the table's column
names; extra columns are permitted, and a zero-row table with the correct
headers is accepted into the collected sequence. -/
theorem claim10_header_acceptance :
    (∀ t1 t2 : Table, (∀ s : String, s ∈ colNames t1 ↔ s ∈ colNames t2) →
      hasRequiredHeaders t1 = hasRequiredHeaders t2) ∧
    (∀ t : Table, hasRequiredHeaders t = true ↔
      ∀ s ∈ requiredHeaders, s ∈ colNames t) ∧
    hasRequiredHeaders emptyRows21 = true ∧
    collectData [emptyRows21] = [emptyRows21] ∧
    hasRequiredHeaders extra22 = true := by
  have hiff : ∀ t : Table, hasRequiredHeaders t = true ↔
      ∀ s ∈ requiredHeaders, s ∈ colNames t := by
    intro t
    simp [hasRequiredHeaders, List.all_eq_true]
  refine ⟨?_, hiff, by decide, by decide, by decide⟩
  intro t1 t2 h
  rw [Bool.eq_iff_iff, hiff t1, hiff t2]
  constructor <;> intro hall s hs
  · exact (h s).mp (hall s hs)
  · exact (h s).mpr (hall s hs)

/-- Witness for C10: acceptance of `sample6` is unchanged when its
columns are listed in reverse order. -/
theorem claim10_witness :
    hasRequiredHeaders sample6 = hasRequiredHeaders sample6.reverse :=
  claim10_header_acceptance.1 sample6 sample6.reverse (by
    intro s
    simp [colNames])
